import Mathlib

/-!
Verification of the `label_only_membership_inference.ipynb` notebook
(the only source file of this repository).

The notebook is a linear sequence of cells gluing together external
library calls.  Two complementary shallow embeddings are used:

1. an *operation sequence* model (`Op`, `notebookOps`): one entry per
   statement of interest of each code cell, in cell order, faithfully
   transcribed from the notebook; execution with possibly failing
   library calls is `executedOps`;

2. a *dataflow* model of the notebook's own pure computations
   (array concatenation, the membership-indicator construction,
   `numpy.random.choice`-based evaluation sampling, fancy indexing,
   `sklearn.metrics.accuracy_score`, and the
   `np.expand_dims(...).astype(np.float32)` reshaping), with the
   external attack calls (`infer`) kept abstract as function
   parameters.
-/

set_option autoImplicit false

universe u

/-- One operation of the notebook run.  Each constructor transcribes one
statement of a code cell of `label_only_membership_inference.ipynb`.
The `obj` argument distinguishes the two `LabelOnlyDecisionBoundary`
objects: `0` is `mia_label_only`, `1` is `mia_label_only_unsupervised`.
The constructors `spawnThread`, `spawnProcess` and `asyncCall` are
possible operation kinds that the notebook could have contained; they
let the absence of concurrency be stated non-vacuously. -/
inductive Op : Type where
  | importLibs : Op
  | loadData : Op
  | reshapeData : Op
  | loadModel : Op
  | wrapClassifier : Op
  | baseAccuracy : Op
  | constructAttack : Nat → Op
  | buildCalibArrays : Op
  | calibrateSupervised : Nat → Op
  | buildEvalSample : Op
  | inferCall : Nat → Op
  | scoreAccuracy : Nat → Op
  | calibrateUnsupervised : Nat → Op
  | spawnThread : Op
  | spawnProcess : Op
  | asyncCall : Op
  deriving DecidableEq, Repr

open Op

/-- The notebook's code cells, in order, transcribed one statement of
interest per entry:
cell 1 `import ...`; cell 2 `load_mnist` then `np.expand_dims/astype`;
cell 3 `torch.load`/`Net()`/`load_state_dict`; cell 4 `PyTorchClassifier(...)`
then the base-model accuracy print; cell 5 `mia_label_only =
LabelOnlyDecisionBoundary(art_model)`; cell 6 `x`/`y`/`training_sample`;
cell 7 `calibrate_distance_threshold(...)`; cell 8 `eval_data_idx`/
`x_eval`/`y_eval`/`eval_label`; cell 9 `mia_label_only.infer(...)`;
cell 10 `accuracy_score` print; cell 11 `mia_label_only_unsupervised =
LabelOnlyDecisionBoundary(art_model)`; cell 12
`calibrate_distance_threshold_unsupervised(...)`; cell 13
`mia_label_only_unsupervised.infer(...)`; cell 14 `accuracy_score` print. -/
def notebookOps : List Op :=
  [importLibs, loadData, reshapeData, loadModel, wrapClassifier, baseAccuracy,
   constructAttack 0, buildCalibArrays, calibrateSupervised 0, buildEvalSample,
   inferCall 0, scoreAccuracy 0,
   constructAttack 1, calibrateUnsupervised 1, inferCall 1, scoreAccuracy 1]

/-- Is this operation a `LabelOnlyDecisionBoundary(...)` construction? -/
def isConstructAttack : Op → Bool
  | constructAttack _ => true
  | _ => false

/-- Is this operation an `infer` call? -/
def isInferCall : Op → Bool
  | inferCall _ => true
  | _ => false

/-- Is this operation one of the two calibration calls? -/
def isCalibrate : Op → Bool
  | calibrateSupervised _ => true
  | calibrateUnsupervised _ => true
  | _ => false

/-- The attack object an operation acts on, if any. -/
def opObj : Op → Option Nat
  | constructAttack o => some o
  | calibrateSupervised o => some o
  | calibrateUnsupervised o => some o
  | inferCall o => some o
  | scoreAccuracy o => some o
  | _ => none

/-- Would this operation start concurrent activity?  The notebook
contains no such statement, so no `Op` of `notebookOps` satisfies it. -/
def isConcurrencyOp : Op → Bool
  | spawnThread => true
  | spawnProcess => true
  | asyncCall => true
  | _ => false

/-- Operation `a` occurs strictly before `b` in the notebook's cell order. -/
def before (a b : Op) : Prop :=
  notebookOps.indexOf a < notebookOps.indexOf b

instance : DecidablePred fun p : Op × Op => before p.1 p.2 := by
  intro p; unfold before; infer_instance

instance (a b : Op) : Decidable (before a b) := by
  unfold before; infer_instance

/-- Sequential cell execution with possibly failing library calls:
`ok` says which operations complete without raising.  Execution runs the
operations in order and stops at the first failing one (the notebook
installs no exception handler), returning the list of operations that
completed. -/
def executedOps (ok : Op → Bool) : List Op → List Op
  | [] => []
  | o :: rest => if ok o then o :: executedOps ok rest else []

theorem executedOps_linear (ok : Op → Bool) :
    ∀ l : List Op, executedOps ok l <+: l := by
  intro l
  induction l with
  | nil => exact List.prefix_rfl
  | cons o rest ih =>
      by_cases h : ok o = true
      · obtain ⟨t, ht⟩ := ih
        exact ⟨t, by simp [executedOps, h, ht]⟩
      · simp [executedOps, h]

theorem executedOps_stops (ok : Op → Bool) :
    ∀ pre : List Op, ∀ o : Op, ∀ post : List Op,
    (∀ p ∈ pre, ok p = true) → ok o = false →
    executedOps ok (pre ++ o :: post) = pre := by
  intro pre
  induction pre with
  | nil => intro o post _ ho; simp [executedOps, ho]
  | cons p rest ih =>
      intro o post hpre ho
      have hp : ok p = true := hpre p (by simp)
      have hrest : ∀ q ∈ rest, ok q = true := fun q hq => hpre q (by simp [hq])
      simp [executedOps, hp, ih o post hrest ho]

/-! ### Dataflow model of the notebook's own computations -/

/-- Collect a list of optional values; `none` as soon as one entry is
`none`.  Models a numpy operation that raises on any failing entry. -/
def optList {α : Type u} : List (Option α) → Option (List α)
  | [] => some []
  | none :: _ => none
  | some a :: rest => (optList rest).map (a :: ·)

theorem optList_map_some {α : Type u} (f : α → Option α) (l : List α)
    (h : ∀ a ∈ l, f a = some a) : optList (l.map f) = some l := by
  induction l with
  | nil => rfl
  | cons a rest ih =>
      have ha : f a = some a := h a (by simp)
      have hrest : ∀ b ∈ rest, f b = some b := fun b hb => h b (by simp [hb])
      simp [optList, ha, ih hrest]

theorem optList_length {α : Type u} (l : List (Option α)) (r : List α)
    (h : optList l = some r) : r.length = l.length := by
  induction l generalizing r with
  | nil =>
      simp only [optList, Option.some.injEq] at h
      simp [← h]
  | cons o rest ih =>
      cases o with
      | none => simp [optList] at h
      | some a =>
          simp only [optList, Option.map_eq_some'] at h
          obtain ⟨r', hr', rfl⟩ := h
          simp [ih r' hr']

theorem optList_mem {α : Type u} (l : List (Option α)) (r : List α)
    (h : optList l = some r) : ∀ a ∈ r, some a ∈ l := by
  induction l generalizing r with
  | nil =>
      simp only [optList, Option.some.injEq] at h
      simp [← h]
  | cons o rest ih =>
      cases o with
      | none => simp [optList] at h
      | some b =>
          simp only [optList, Option.map_eq_some'] at h
          obtain ⟨r', hr', rfl⟩ := h
          intro a ha
          rcases List.mem_cons.mp ha with rfl | ha'
          · simp
          · exact List.mem_cons_of_mem _ (ih r' hr' a ha')

theorem optList_all_some {α : Type u} (l : List (Option α))
    (h : ∀ o ∈ l, ∃ a, o = some a) : ∃ r, optList l = some r := by
  induction l with
  | nil => exact ⟨[], rfl⟩
  | cons o rest ih =>
      obtain ⟨a, rfl⟩ := h o (by simp)
      obtain ⟨r, hr⟩ := ih fun p hp => h p (by simp [hp])
      exact ⟨a :: r, by simp [optList, hr]⟩

/-- numpy fancy indexing `xs[idx]`: one lookup per index, raising
(`none`) when any index is out of bounds, as numpy does. -/
def npIndex {α : Type u} (xs : List α) (idx : List Nat) : Option (List α) :=
  optList (idx.map fun i => xs[i]?)

theorem npIndex_length {α : Type u} (xs : List α) (idx : List Nat)
    (r : List α) (h : npIndex xs idx = some r) : r.length = idx.length := by
  simpa using optList_length _ _ h

theorem npIndex_mem {α : Type u} (xs : List α) (idx : List Nat)
    (r : List α) (h : npIndex xs idx = some r) : ∀ a ∈ r, a ∈ xs := by
  intro a ha
  have hmem := optList_mem _ _ h a ha
  obtain ⟨i, _, hi⟩ := List.mem_map.mp hmem
  exact List.getElem?_mem hi

theorem npIndex_inbounds {α : Type u} (xs : List α) (idx : List Nat)
    (h : ∀ i ∈ idx, i < xs.length) : ∃ r, npIndex xs idx = some r := by
  apply optList_all_some
  intro o ho
  obtain ⟨i, hi, rfl⟩ := List.mem_map.mp ho
  exact ⟨_, List.getElem?_eq_getElem (h i hi)⟩

/-- The statement `training_sample = np.array([1] * len(x_train) + [0] * len(x_test))`
(cell 6 of the notebook). -/
def training_sample (nTrain nTest : Nat) : List Nat :=
  List.replicate nTrain 1 ++ List.replicate nTest 0

/-- The call `numpy.random.choice(n, size)`: `size` draws from `range(n)`; the
randomness source `g` is abstract, each draw is reduced into `[0, n)`
by `% n` (for `n = 0` numpy raises; the model then returns the raw
draws, which the in-bounds theorems therefore hypothesise `0 < n`). -/
def choice (n size : Nat) (g : Nat → Nat) : List Nat :=
  (List.range size).map fun i => g i % n

/-- The evaluation-sample size: `n = 500` in cell 8 of the notebook. -/
def evalSize : Nat := 500

/-- The call `sklearn.metrics.accuracy_score(y_true, y_pred)`: the fraction of
positions where the two label vectors agree; raises (`none`) on length
mismatch, as sklearn does. -/
def accuracy_score (t p : List Nat) : Option ℚ :=
  if t.length = p.length then
    some (((t.zip p).countP fun ab => ab.1 == ab.2 : ℚ) / t.length)
  else none

/-- Number of agreeing positions of two label vectors. -/
def matchCount (t p : List Nat) : Nat :=
  (t.zip p).countP fun ab => ab.1 == ab.2

/-- The statement `attack_train_size = 1500` (cell 7). -/
def attack_train_size : Nat := 1500

/-- The statement `attack_test_size = 1500` (cell 7). -/
def attack_test_size : Nat := 1500

/-- The four positional arguments of
`mia_label_only.calibrate_distance_threshold(x_train[:attack_train_size],
y_train[:attack_train_size], x_test[:attack_test_size],
y_test[:attack_test_size])` (cell 7). -/
structure SupCalibArgs (Img : Type u) : Type u where
  xTrainArg : List Img
  yTrainArg : List Nat
  xTestArg : List Img
  yTestArg : List Nat

/-- The argument tuple of the supervised calibration call, transcribed
from cell 7 of the notebook. -/
def supervised_calibration_args {Img : Type u}
    (xtr xte : List Img) (ytr yte : List Nat) : SupCalibArgs Img :=
  { xTrainArg := xtr.take attack_train_size
    yTrainArg := ytr.take attack_train_size
    xTestArg := xte.take attack_test_size
    yTestArg := yte.take attack_test_size }

/-- The keyword arguments of
`mia_label_only_unsupervised.calibrate_distance_threshold_unsupervised(
top_t=50, num_samples=500, max_queries=2, verbose=True, batch_size=256)`
(cell 12): only scalars, no sample-data array among them. -/
structure UnsupCalibArgs : Type where
  top_t : Nat
  num_samples : Nat
  max_queries : Nat
  verbose : Bool
  batch_size : Nat

/-- The argument tuple of the unsupervised calibration call, transcribed
from cell 12 of the notebook. -/
def unsupervised_calibration_args : UnsupCalibArgs :=
  { top_t := 50, num_samples := 500, max_queries := 2,
    verbose := true, batch_size := 256 }

/-- Modelled from the spec: the spec's external-interface section says
the attack object exposes "two calibration entry points (supervised and
unsupervised)"; the `LabelOnlyDecisionBoundary` class itself is not
among the source files, so its interface is modelled here as an
enumeration of those entry points. -/
inductive CalibrationEntryPoint : Type where
  | supervisedEntry : CalibrationEntryPoint
  | unsupervisedEntry : CalibrationEntryPoint
  deriving DecidableEq, Repr

/-- Cells 6, 8, 9, 10, 13 and 14 of the notebook as one dataflow
function: build `x`, `y`, `training_sample`, draw `eval_data_idx`,
index out `x_eval`, `y_eval`, `eval_label`, run both attacks' `infer`
(abstract functions `infer1`, `infer2`, the calibrated attack objects'
behaviour) on the SAME evaluation sample, and score both predictions
with `accuracy_score` against the same `eval_label`. -/
def attackPhase {Img : Type u} (xtr xte : List Img) (ytr yte : List Nat)
    (g : Nat → Nat) (infer1 infer2 : List Img → List Nat → List Nat) :
    Option (ℚ × ℚ) :=
  let x := xtr ++ xte
  let y := ytr ++ yte
  let ts := training_sample xtr.length xte.length
  let idx := choice x.length evalSize g
  match npIndex x idx, npIndex y idx, npIndex ts idx with
  | some x_eval, some y_eval, some eval_label =>
      match accuracy_score eval_label (infer1 x_eval y_eval),
            accuracy_score eval_label (infer2 x_eval y_eval) with
      | some a1, some a2 => some (a1, a2)
      | _, _ => none
  | _, _, _ => none

/-! ### The `np.expand_dims(..., axis=1).astype(np.float32)` reshaping -/

/-- A raw MNIST image: a matrix of pixel values (rows of pixels). -/
abbrev Image2 : Type := List (List Nat)

/-- An image after `expand_dims(axis=1)`: a stack of channel planes. -/
abbrev Image3 : Type := List Image2

/-- The matrix has `r` rows of `c` pixels each. -/
def hasShape2 (im : Image2) (r c : Nat) : Prop :=
  im.length = r ∧ ∀ row ∈ im, row.length = c

/-- The stack has `ch` planes of shape `r × c`. -/
def hasShape3 (im : Image3) (ch r c : Nat) : Prop :=
  im.length = ch ∧ ∀ p ∈ im, hasShape2 p r c

instance (im : Image2) (r c : Nat) : Decidable (hasShape2 im r c) := by
  unfold hasShape2; infer_instance

instance (im : Image3) (ch r c : Nat) : Decidable (hasShape3 im ch r c) := by
  unfold hasShape3
  have : ∀ p : Image2, Decidable (hasShape2 p r c) := fun p => by
    unfold hasShape2; infer_instance
  infer_instance

/-- The call `np.expand_dims(xs, axis=1)` on an `(N, r, c)` array: each sample
becomes a one-plane stack; sample count and pixel values untouched. -/
def expand_dims_axis1 (xs : List Image2) : List Image3 :=
  xs.map fun im => [im]

/-- The conversion `astype(np.float32)` on one natural pixel value: the integers that
IEEE-754 binary32 represents exactly are those below `2 ^ 24` (24-bit
significand), and on them the conversion is value-preserving; larger
values would round and are not modelled (`none`). -/
def f32exact (v : Nat) : Option Nat :=
  if v < 2 ^ 24 then some v else none

/-- The conversion `astype(np.float32)` over a matrix. -/
def astypeF32Mat (im : Image2) : Option Image2 :=
  optList (im.map fun row => optList (row.map f32exact))

/-- The conversion `astype(np.float32)` over a plane stack. -/
def astypeF32Stack (im : Image3) : Option Image3 :=
  optList (im.map astypeF32Mat)

/-- The expression `np.expand_dims(xs, axis=1).astype(np.float32)` (cell 2 of the
notebook, applied to `x_train` and to `x_test`). -/
def reshape_pipeline (xs : List Image2) : Option (List Image3) :=
  optList ((expand_dims_axis1 xs).map astypeF32Stack)

/-- The `input_shape=(1,28,28,)` argument of the `PyTorchClassifier`
wrapping call (cell 4). -/
def pytorch_input_shape : Nat × Nat × Nat := (1, 28, 28)

/-- The `channels_first=True` argument of the `PyTorchClassifier`
wrapping call (cell 4). -/
def pytorch_channels_first : Bool := true

/-! ### Claims about the operation sequence -/

/-- Claim C1 as stated is false on the code: a full notebook run
constructs TWO `LabelOnlyDecisionBoundary` objects (`mia_label_only` in
cell 5 and `mia_label_only_unsupervised` in cell 11), not exactly one,
and invokes `infer` twice (cells 9 and 13), not exactly once. -/
theorem C1_counterexample :
    ¬ (notebookOps.countP isConstructAttack = 1 ∧
       notebookOps.countP isInferCall = 1) := by
  decide

/-- Claim C1 (amended): per run the notebook performs one classifier-
adapter call, constructs exactly two `LabelOnlyDecisionBoundary`
objects (one per calibration variant), and invokes `infer` exactly
twice — exactly once on each attack object. -/
theorem C1_amended_counts :
    notebookOps.count wrapClassifier = 1 ∧
    notebookOps.countP isConstructAttack = 2 ∧
    notebookOps.countP isInferCall = 2 ∧
    notebookOps.count (inferCall 0) = 1 ∧
    notebookOps.count (inferCall 1) = 1 := by
  decide

/-- Claim C2: the run follows the fixed pipeline order — data and model
loading, then wrapping, then (for each attack object) construction,
calibration, inference, accuracy reporting; no calibration operation
occurs before the wrapping call, and every `infer` call is preceded by
a calibration call on the same attack object. -/
theorem C2_pipeline_order :
    before loadData wrapClassifier ∧
    before loadModel wrapClassifier ∧
    before wrapClassifier (constructAttack 0) ∧
    before wrapClassifier (constructAttack 1) ∧
    before (constructAttack 0) (calibrateSupervised 0) ∧
    before (constructAttack 1) (calibrateUnsupervised 1) ∧
    before (calibrateSupervised 0) (inferCall 0) ∧
    before (calibrateUnsupervised 1) (inferCall 1) ∧
    before (inferCall 0) (scoreAccuracy 0) ∧
    before (inferCall 1) (scoreAccuracy 1) ∧
    (∀ o ∈ notebookOps, isCalibrate o = true → before wrapClassifier o) ∧
    (∀ o ∈ notebookOps, isInferCall o = true →
      ∃ c ∈ notebookOps, isCalibrate c = true ∧ opObj c = opObj o ∧
        before c o) := by
  decide

/-- Claim C6: the notebook installs no exception handler — if every
operation before some operation `o` completes and `o` raises, then the
executed operations are exactly those before `o`: nothing after the
failing call runs, so no later statement modifies any variable. -/
theorem C6_unhandled_exception (ok : Op → Bool) (pre : List Op) (o : Op)
    (post : List Op) (hsplit : notebookOps = pre ++ o :: post)
    (hpre : ∀ p ∈ pre, ok p = true) (hfail : ok o = false) :
    executedOps ok notebookOps = pre := by
  rw [hsplit]
  exact executedOps_stops ok pre o post hpre hfail

/-- Witness for C6: a run whose supervised calibration call raises
executes exactly the operations of cells 1–6 and nothing later. -/
theorem C6_unhandled_exception_witness :
    executedOps (fun o => !(o == calibrateSupervised 0)) notebookOps =
      [importLibs, loadData, reshapeData, loadModel, wrapClassifier,
       baseAccuracy, constructAttack 0, buildCalibArrays] :=
  C6_unhandled_exception (fun o => !(o == calibrateSupervised 0))
    [importLibs, loadData, reshapeData, loadModel, wrapClassifier,
     baseAccuracy, constructAttack 0, buildCalibArrays]
    (calibrateSupervised 0)
    [buildEvalSample, inferCall 0, scoreAccuracy 0,
     constructAttack 1, calibrateUnsupervised 1, inferCall 1,
     scoreAccuracy 1]
    (by decide) (by decide) (by decide)

/-- Claim C7: the notebook run is a single-threaded, synchronous,
linear sequence — no operation of the transcribed cell sequence starts
a thread, a process or asynchronous work, and under any pattern of
library-call success the executed operations are an order-preserving
front segment of the cell sequence (each cell completes before the
next begins). -/
theorem C7_single_threaded :
    (notebookOps.all fun o => !isConcurrencyOp o) = true ∧
    ∀ ok : Op → Bool, executedOps ok notebookOps <+: notebookOps :=
  ⟨by decide, fun ok => executedOps_linear ok notebookOps⟩

/-! ### Claims about the calibration calls and the data vectors -/

/-- Claim C3: the attack object exposes exactly two calibration entry
points and the notebook exercises both; the supervised one receives a
prefix of the training split with the matching prefix of its labels and
a prefix of the test split with the matching prefix of its labels
(equal lengths when the label vectors match the data), while the
unsupervised one receives only the scalar parameters `top_t=50`,
`num_samples=500`, `max_queries=2`, `batch_size=256` (plus the scalar
flag `verbose=True`) and no sample data. -/
theorem C3_two_calibration_entry_points {Img : Type u}
    (xtr xte : List Img) (ytr yte : List Nat)
    (hytr : ytr.length = xtr.length) (hyte : yte.length = xte.length) :
    (∀ e : CalibrationEntryPoint,
      e = CalibrationEntryPoint.supervisedEntry ∨
      e = CalibrationEntryPoint.unsupervisedEntry) ∧
    calibrateSupervised 0 ∈ notebookOps ∧
    calibrateUnsupervised 1 ∈ notebookOps ∧
    (supervised_calibration_args xtr xte ytr yte).xTrainArg <+: xtr ∧
    (supervised_calibration_args xtr xte ytr yte).yTrainArg <+: ytr ∧
    (supervised_calibration_args xtr xte ytr yte).xTestArg <+: xte ∧
    (supervised_calibration_args xtr xte ytr yte).yTestArg <+: yte ∧
    (supervised_calibration_args xtr xte ytr yte).xTrainArg.length =
      (supervised_calibration_args xtr xte ytr yte).yTrainArg.length ∧
    (supervised_calibration_args xtr xte ytr yte).xTestArg.length =
      (supervised_calibration_args xtr xte ytr yte).yTestArg.length ∧
    unsupervised_calibration_args.top_t = 50 ∧
    unsupervised_calibration_args.num_samples = 500 ∧
    unsupervised_calibration_args.max_queries = 2 ∧
    unsupervised_calibration_args.batch_size = 256 ∧
    unsupervised_calibration_args.verbose = true := by
  refine ⟨?_, by decide, by decide, ?_, ?_, ?_, ?_, ?_, ?_,
    rfl, rfl, rfl, rfl, rfl⟩
  · intro e; cases e
    · exact Or.inl rfl
    · exact Or.inr rfl
  · exact List.take_prefix _ _
  · exact List.take_prefix _ _
  · exact List.take_prefix _ _
  · exact List.take_prefix _ _
  · simp [supervised_calibration_args, hytr]
  · simp [supervised_calibration_args, hyte]

/-- Witness for C3 at a concrete dataset. -/
theorem C3_two_calibration_entry_points_witness :
    ([3, 4].length = [10, 20].length ∧ [5].length = [30].length) ∧
    ((∀ e : CalibrationEntryPoint,
        e = CalibrationEntryPoint.supervisedEntry ∨
        e = CalibrationEntryPoint.unsupervisedEntry) ∧
      calibrateSupervised 0 ∈ notebookOps ∧
      calibrateUnsupervised 1 ∈ notebookOps ∧
      (supervised_calibration_args [10, 20] [30] [3, 4] [5]).xTrainArg
        <+: [10, 20] ∧
      (supervised_calibration_args [10, 20] [30] [3, 4] [5]).yTrainArg
        <+: [3, 4] ∧
      (supervised_calibration_args [10, 20] [30] [3, 4] [5]).xTestArg
        <+: [30] ∧
      (supervised_calibration_args [10, 20] [30] [3, 4] [5]).yTestArg
        <+: [5] ∧
      (supervised_calibration_args [10, 20] [30] [3, 4] [5]).xTrainArg.length =
        (supervised_calibration_args [10, 20] [30] [3, 4] [5]).yTrainArg.length ∧
      (supervised_calibration_args [10, 20] [30] [3, 4] [5]).xTestArg.length =
        (supervised_calibration_args [10, 20] [30] [3, 4] [5]).yTestArg.length ∧
      unsupervised_calibration_args.top_t = 50 ∧
      unsupervised_calibration_args.num_samples = 500 ∧
      unsupervised_calibration_args.max_queries = 2 ∧
      unsupervised_calibration_args.batch_size = 256 ∧
      unsupervised_calibration_args.verbose = true) :=
  ⟨⟨by decide, by decide⟩,
    C3_two_calibration_entry_points [10, 20] [30] [3, 4] [5]
      (by decide) (by decide)⟩

/-- Claim C4: the membership-indicator vector is binary — every entry
of `training_sample` is `0` or `1`, and every entry of any `eval_label`
obtained from it by fancy indexing is `0` or `1`; no notebook
operation writes any other value into these vectors (they are built
once, in cells 6 and 8, and only read afterwards). -/
theorem C4_binary_indicator (nTr nTe : Nat) (idx : List Nat)
    (el : List Nat)
    (h : npIndex (training_sample nTr nTe) idx = some el) :
    (∀ v ∈ training_sample nTr nTe, v = 0 ∨ v = 1) ∧
    ∀ v ∈ el, v = 0 ∨ v = 1 := by
  have hts : ∀ v ∈ training_sample nTr nTe, v = 0 ∨ v = 1 := by
    intro v hv
    rcases List.mem_append.mp hv with h1 | h0
    · exact Or.inr (List.eq_of_mem_replicate h1)
    · exact Or.inl (List.eq_of_mem_replicate h0)
  exact ⟨hts, fun v hv => hts v (npIndex_mem _ _ _ h v hv)⟩

/-- Witness for C4 at a concrete indicator vector and index list. -/
theorem C4_binary_indicator_witness :
    (∀ v ∈ training_sample 2 1, v = 0 ∨ v = 1) ∧
    ∀ v ∈ [1, 0, 1], v = 0 ∨ v = 1 :=
  C4_binary_indicator 2 1 [0, 2, 1] [1, 0, 1] (by decide)

/-- Claim C8: with `x = x_train ++ x_test`, the indicator
`training_sample` has entry `1` at position `i` exactly when `i` falls
in the training prefix, and its length equals the lengths of `x` and
`y` (given label vectors matching their data splits). -/
theorem C8_indicator_matches_concat {Img : Type u}
    (xtr xte : List Img) (ytr yte : List Nat)
    (h1 : ytr.length = xtr.length) (h2 : yte.length = xte.length) :
    (training_sample xtr.length xte.length).length =
      (xtr ++ xte).length ∧
    (training_sample xtr.length xte.length).length =
      (ytr ++ yte).length ∧
    ∀ i, i < (xtr ++ xte).length →
      ((training_sample xtr.length xte.length).getD i 2 = 1 ↔
        i < xtr.length) := by
  refine ⟨by simp [training_sample], by simp [training_sample, h1, h2], ?_⟩
  intro i hi
  rw [List.getD_eq_getElem?_getD, training_sample, List.getElem?_append]
  by_cases hlt : i < xtr.length
  · simp [List.getElem?_replicate, hlt]
  · have hsub : i - xtr.length < xte.length := by
      have hx : i < xtr.length + xte.length := by simpa using hi
      omega
    simp [List.getElem?_replicate, hlt, hsub]

/-- Witness for C8 at a concrete dataset. -/
theorem C8_indicator_matches_concat_witness :
    ([3, 4].length = [10, 20].length ∧ [5].length = [30].length) ∧
    ((training_sample ([10, 20] : List Nat).length
        ([30] : List Nat).length).length =
      (([10, 20] : List Nat) ++ [30]).length ∧
    (training_sample ([10, 20] : List Nat).length
        ([30] : List Nat).length).length =
      (([3, 4] : List Nat) ++ [5]).length ∧
    ∀ i, i < (([10, 20] : List Nat) ++ [30]).length →
      ((training_sample ([10, 20] : List Nat).length
          ([30] : List Nat).length).getD i 2 = 1 ↔
        i < ([10, 20] : List Nat).length)) :=
  ⟨⟨by decide, by decide⟩,
    C8_indicator_matches_concat [10, 20] [30] [3, 4] [5]
      (by decide) (by decide)⟩

/-- Shared helper: when the concatenated dataset is nonempty and the
label vector has the same length, all three fancy indexings of cell 8
succeed and produce vectors of length `evalSize`. -/
theorem evalSample_exists {Img : Type u} (xtr xte : List Img)
    (ytr yte : List Nat) (g : Nat → Nat)
    (hx : 0 < (xtr ++ xte).length)
    (hy : (ytr ++ yte).length = (xtr ++ xte).length) :
    ∃ (x_eval : List Img) (y_eval eval_label : List Nat),
      npIndex (xtr ++ xte)
        (choice (xtr ++ xte).length evalSize g) = some x_eval ∧
      npIndex (ytr ++ yte)
        (choice (xtr ++ xte).length evalSize g) = some y_eval ∧
      npIndex (training_sample xtr.length xte.length)
        (choice (xtr ++ xte).length evalSize g) = some eval_label ∧
      x_eval.length = evalSize ∧ y_eval.length = evalSize ∧
      eval_label.length = evalSize := by
  have hidx : ∀ i ∈ choice (xtr ++ xte).length evalSize g,
      i < (xtr ++ xte).length := by
    intro i hi
    obtain ⟨j, _, rfl⟩ := List.mem_map.mp hi
    exact Nat.mod_lt _ hx
  have hts : (training_sample xtr.length xte.length).length =
      (xtr ++ xte).length := by simp [training_sample]
  obtain ⟨xe, hxe⟩ := npIndex_inbounds (xtr ++ xte) _ hidx
  obtain ⟨ye, hye⟩ := npIndex_inbounds (ytr ++ yte) _
    (fun i hi => hy ▸ hidx i hi)
  obtain ⟨el, hel⟩ := npIndex_inbounds (training_sample xtr.length xte.length)
    _ (fun i hi => hts ▸ hidx i hi)
  have hlen : (choice (xtr ++ xte).length evalSize g).length = evalSize := by
    simp [choice]
  exact ⟨xe, ye, el, hxe, hye, hel,
    (npIndex_length _ _ _ hxe).trans hlen,
    (npIndex_length _ _ _ hye).trans hlen,
    (npIndex_length _ _ _ hel).trans hlen⟩

/-- Claim C9: evaluation-sample construction is index-safe — with a
nonempty concatenated dataset, every drawn index is in bounds, the
three fancy indexings succeed with vectors of length 500 (`evalSize`),
and (given that `infer` returns one prediction per input, its library
contract) the two arguments of each `accuracy_score` call have equal
length. -/
theorem C9_eval_sample_index_safe {Img : Type u} (xtr xte : List Img)
    (ytr yte : List Nat) (g : Nat → Nat)
    (infer1 infer2 : List Img → List Nat → List Nat)
    (hx : 0 < (xtr ++ xte).length)
    (hy : (ytr ++ yte).length = (xtr ++ xte).length)
    (hi1 : ∀ xs ys, (infer1 xs ys).length = xs.length)
    (hi2 : ∀ xs ys, (infer2 xs ys).length = xs.length) :
    (∀ i ∈ choice (xtr ++ xte).length evalSize g,
      i < (xtr ++ xte).length) ∧
    ∃ (x_eval : List Img) (y_eval eval_label : List Nat),
      npIndex (xtr ++ xte)
        (choice (xtr ++ xte).length evalSize g) = some x_eval ∧
      npIndex (ytr ++ yte)
        (choice (xtr ++ xte).length evalSize g) = some y_eval ∧
      npIndex (training_sample xtr.length xte.length)
        (choice (xtr ++ xte).length evalSize g) = some eval_label ∧
      x_eval.length = evalSize ∧ y_eval.length = evalSize ∧
      eval_label.length = evalSize ∧
      (infer1 x_eval y_eval).length = eval_label.length ∧
      (infer2 x_eval y_eval).length = eval_label.length := by
  have hidx : ∀ i ∈ choice (xtr ++ xte).length evalSize g,
      i < (xtr ++ xte).length := by
    intro i hi
    obtain ⟨j, _, rfl⟩ := List.mem_map.mp hi
    exact Nat.mod_lt _ hx
  obtain ⟨xe, ye, el, hxe, hye, hel, hxl, hyl, hell⟩ :=
    evalSample_exists xtr xte ytr yte g hx hy
  exact ⟨hidx, xe, ye, el, hxe, hye, hel, hxl, hyl, hell,
    by rw [hi1 xe ye, hxl, hell],
    by rw [hi2 xe ye, hxl, hell]⟩

/-- Witness for C9 at a concrete dataset, randomness source and
length-preserving `infer` functions. -/
theorem C9_eval_sample_index_safe_witness :
    (0 < (([10] : List Nat) ++ [20]).length ∧
      (([1] : List Nat) ++ [2]).length = (([10] : List Nat) ++ [20]).length) ∧
    ((∀ i ∈ choice (([10] : List Nat) ++ [20]).length evalSize (fun i => i),
        i < (([10] : List Nat) ++ [20]).length) ∧
      ∃ (x_eval : List Nat) (y_eval eval_label : List Nat),
        npIndex (([10] : List Nat) ++ [20])
          (choice (([10] : List Nat) ++ [20]).length evalSize
            (fun i => i)) = some x_eval ∧
        npIndex (([1] : List Nat) ++ [2])
          (choice (([10] : List Nat) ++ [20]).length evalSize
            (fun i => i)) = some y_eval ∧
        npIndex (training_sample ([10] : List Nat).length
            ([20] : List Nat).length)
          (choice (([10] : List Nat) ++ [20]).length evalSize
            (fun i => i)) = some eval_label ∧
        x_eval.length = evalSize ∧ y_eval.length = evalSize ∧
        eval_label.length = evalSize ∧
        ((fun (xs : List Nat) (_ : List Nat) => xs) x_eval y_eval).length =
          eval_label.length ∧
        ((fun (xs : List Nat) (_ : List Nat) => xs) x_eval y_eval).length =
          eval_label.length) :=
  ⟨⟨by decide, by decide⟩,
    C9_eval_sample_index_safe [10] [20] [1] [2] (fun i => i)
      (fun xs _ => xs) (fun xs _ => xs)
      (by decide) (by decide) (fun _ _ => rfl) (fun _ _ => rfl)⟩

/-- Claim C5: each reported accuracy equals `accuracy_score` applied to
the true membership indicators and the attack's predictions — the
fraction of the `evalSize = 500` evaluation samples whose predicted
membership agrees with `eval_label` — and both attacks are scored
against the identical `(x_eval, y_eval, eval_label)`. -/
theorem C5_accuracy_is_agreement_fraction {Img : Type u}
    (xtr xte : List Img) (ytr yte : List Nat) (g : Nat → Nat)
    (infer1 infer2 : List Img → List Nat → List Nat)
    (hx : 0 < (xtr ++ xte).length)
    (hy : (ytr ++ yte).length = (xtr ++ xte).length)
    (hi1 : ∀ xs ys, (infer1 xs ys).length = xs.length)
    (hi2 : ∀ xs ys, (infer2 xs ys).length = xs.length) :
    ∃ (x_eval : List Img) (y_eval eval_label : List Nat),
      eval_label.length = evalSize ∧
      accuracy_score eval_label (infer1 x_eval y_eval) =
        some ((matchCount eval_label (infer1 x_eval y_eval) : ℚ) /
          (evalSize : ℚ)) ∧
      accuracy_score eval_label (infer2 x_eval y_eval) =
        some ((matchCount eval_label (infer2 x_eval y_eval) : ℚ) /
          (evalSize : ℚ)) ∧
      attackPhase xtr xte ytr yte g infer1 infer2 =
        some ((matchCount eval_label (infer1 x_eval y_eval) : ℚ) /
            (evalSize : ℚ),
          (matchCount eval_label (infer2 x_eval y_eval) : ℚ) /
            (evalSize : ℚ)) := by
  obtain ⟨xe, ye, el, hxe, hye, hel, hxl, hyl, hell⟩ :=
    evalSample_exists xtr xte ytr yte g hx hy
  have hlen1 : (infer1 xe ye).length = evalSize := by rw [hi1 xe ye, hxl]
  have hlen2 : (infer2 xe ye).length = evalSize := by rw [hi2 xe ye, hxl]
  have ha1 : accuracy_score el (infer1 xe ye) =
      some ((matchCount el (infer1 xe ye) : ℚ) / (evalSize : ℚ)) := by
    simp [accuracy_score, matchCount, hell, hlen1]
  have ha2 : accuracy_score el (infer2 xe ye) =
      some ((matchCount el (infer2 xe ye) : ℚ) / (evalSize : ℚ)) := by
    simp [accuracy_score, matchCount, hell, hlen2]
  refine ⟨xe, ye, el, hell, ha1, ha2, ?_⟩
  simp only [attackPhase]
  rw [hxe, hye, hel]
  simp [ha1, ha2]

/-- Witness for C5 at a concrete dataset, randomness source and
length-preserving `infer` functions. -/
theorem C5_accuracy_is_agreement_fraction_witness :
    (0 < (([10] : List Nat) ++ [20]).length ∧
      (([1] : List Nat) ++ [2]).length = (([10] : List Nat) ++ [20]).length) ∧
    ∃ (x_eval : List Nat) (y_eval eval_label : List Nat),
      eval_label.length = evalSize ∧
      accuracy_score eval_label
          ((fun (xs : List Nat) (_ : List Nat) => xs) x_eval y_eval) =
        some ((matchCount eval_label
            ((fun (xs : List Nat) (_ : List Nat) => xs) x_eval y_eval) : ℚ) /
          (evalSize : ℚ)) ∧
      accuracy_score eval_label
          ((fun (xs : List Nat) (_ : List Nat) => xs.map (· + 1))
            x_eval y_eval) =
        some ((matchCount eval_label
            ((fun (xs : List Nat) (_ : List Nat) => xs.map (· + 1))
              x_eval y_eval) : ℚ) /
          (evalSize : ℚ)) ∧
      attackPhase [10] [20] [1] [2] (fun i => i)
          (fun (xs : List Nat) (_ : List Nat) => xs)
          (fun (xs : List Nat) (_ : List Nat) => xs.map (· + 1)) =
        some ((matchCount eval_label
              ((fun (xs : List Nat) (_ : List Nat) => xs) x_eval y_eval) : ℚ) /
            (evalSize : ℚ),
          (matchCount eval_label
              ((fun (xs : List Nat) (_ : List Nat) => xs.map (· + 1))
                x_eval y_eval) : ℚ) /
            (evalSize : ℚ)) :=
  ⟨⟨by decide, by decide⟩,
    C5_accuracy_is_agreement_fraction [10] [20] [1] [2] (fun i => i)
      (fun xs _ => xs) (fun xs _ => xs.map (· + 1))
      (by decide) (by decide) (fun _ _ => rfl) (fun _ _ => by simp)⟩

/-- On a matrix whose pixel values are all exactly representable in
binary32, `astype(np.float32)` is value-preserving. -/
theorem astypeF32Mat_exact (im : Image2)
    (h : ∀ row ∈ im, ∀ v ∈ row, v < 2 ^ 24) :
    astypeF32Mat im = some im := by
  unfold astypeF32Mat
  apply optList_map_some
  intro row hrow
  rw [optList_map_some f32exact row ?_]
  intro v hv
  unfold f32exact
  exact if_pos (h row hrow v hv)

/-- Claim C10: on an `(N, 28, 28)` input with raw byte pixel values,
`np.expand_dims(..., axis=1).astype(np.float32)` succeeds exactly with
value preservation, yields `N` samples, each `xs[i]` wrapped as the
single channel plane of the `i`-th output sample, and every output
sample has shape `(1, 28, 28)` — the `input_shape` that the
`PyTorchClassifier` wrapping declares, with `channels_first=True`. -/
theorem C10_reshape_preserves (xs : List Image2)
    (hsh : ∀ im ∈ xs, hasShape2 im 28 28)
    (hpx : ∀ im ∈ xs, ∀ row ∈ im, ∀ v ∈ row, v < 256) :
    reshape_pipeline xs = some (expand_dims_axis1 xs) ∧
    (expand_dims_axis1 xs).length = xs.length ∧
    (∀ i, i < xs.length →
      (expand_dims_axis1 xs).getD i [] = [xs.getD i []]) ∧
    (∀ im3 ∈ expand_dims_axis1 xs,
      hasShape3 im3 pytorch_input_shape.1 pytorch_input_shape.2.1
        pytorch_input_shape.2.2) ∧
    pytorch_channels_first = true := by
  refine ⟨?_, by simp [expand_dims_axis1], ?_, ?_, rfl⟩
  · unfold reshape_pipeline
    apply optList_map_some
    intro im3 him3
    obtain ⟨im, him, rfl⟩ := List.mem_map.mp him3
    unfold astypeF32Stack
    apply optList_map_some
    intro p hp
    rw [List.mem_singleton.mp hp]
    exact astypeF32Mat_exact im
      (fun row hrow v hv => lt_trans (hpx im him row hrow v hv) (by norm_num))
  · intro i hi
    rw [List.getD_eq_getElem?_getD, expand_dims_axis1, List.getElem?_map,
      List.getElem?_eq_getElem hi, List.getD_eq_getElem?_getD,
      List.getElem?_eq_getElem hi]
    rfl
  · intro im3 him3
    obtain ⟨im, him, rfl⟩ := List.mem_map.mp him3
    obtain ⟨hr, hc⟩ := hsh im him
    exact ⟨rfl, fun p hp => by rw [List.mem_singleton.mp hp]; exact ⟨hr, hc⟩⟩

/-- Witness for C10 at a concrete one-sample `(1, 28, 28)` batch of
zero pixels. -/
theorem C10_reshape_preserves_witness :
    ((∀ im ∈ [List.replicate 28 (List.replicate 28 0)],
        hasShape2 im 28 28) ∧
      (∀ im ∈ [List.replicate 28 (List.replicate 28 0)],
        ∀ row ∈ im, ∀ v ∈ row, v < 256)) ∧
    (reshape_pipeline [List.replicate 28 (List.replicate 28 0)] =
      some (expand_dims_axis1 [List.replicate 28 (List.replicate 28 0)]) ∧
    (expand_dims_axis1 [List.replicate 28 (List.replicate 28 0)]).length =
      ([List.replicate 28 (List.replicate 28 0)] : List Image2).length ∧
    (∀ i, i < ([List.replicate 28 (List.replicate 28 0)] :
        List Image2).length →
      (expand_dims_axis1 [List.replicate 28 (List.replicate 28 0)]).getD
          i [] =
        [([List.replicate 28 (List.replicate 28 0)] :
            List Image2).getD i []]) ∧
    (∀ im3 ∈ expand_dims_axis1 [List.replicate 28 (List.replicate 28 0)],
      hasShape3 im3 pytorch_input_shape.1 pytorch_input_shape.2.1
        pytorch_input_shape.2.2) ∧
    pytorch_channels_first = true) :=
  ⟨⟨by decide, by decide⟩,
    C10_reshape_preserves [List.replicate 28 (List.replicate 28 0)]
      (by decide) (by decide)⟩
